import Mathlib

/-!
Verification of the dictation content script (`src/content.js`) of the
voice-input extension.  The script's mutable state, its recognition-engine
callbacks (`onresult`, `onerror`, `onend`), the session entry points
(`startRecognition`, `stopRecognition`, the keydown and message handlers)
and the two insertion routines (`insertIntoStandardInput`,
`insertIntoContentEditable`) are embedded shallowly below; the stated
theorems check the specification's claims against these definitions.
-/

namespace VoiceInput

/-- One entry of a recognition result batch: `isFinal` mirrors `r.isFinal`,
`transcript` mirrors `r[0].transcript` in `content.js`. -/
structure RecResult where
  isFinal : Bool
  transcript : String
deriving DecidableEq

/-- A cumulative snapshot `event.results` delivered by the engine. -/
abbrev RecognitionBatch := List RecResult

/-- The content script's mutable session state.  `recognitionActive` mirrors
`recognition !== null`; `targetElement` holds the id of the element captured
at start; `finalTranscript`, `currentInterim` and the per-lifetime closure
variable `sessionCommitted` mirror the like-named variables; `lang` mirrors
`recognition.lang`. -/
structure ContentState where
  recognitionActive : Bool
  targetElement : Option Nat
  finalTranscript : String
  currentInterim : String
  sessionCommitted : String
  lang : String
deriving DecidableEq

/-- The state before any session: all references null, all strings empty. -/
def initialState : ContentState :=
  { recognitionActive := false, targetElement := none, finalTranscript := "",
    currentInterim := "", sessionCommitted := "", lang := "" }

/-- The document environment: which element ids are currently connected
(`el.isConnected`). -/
structure Dom where
  connected : Nat → Bool

/-- A single call of `insertTextIntoElement(el, text)`: the commit attempt
`stopRecognition` may perform. -/
structure Insertion where
  target : Nat
  text : String
deriving DecidableEq

/-- JS `s.substring(0, n)`: the first `n` characters, computed on the
character list (equal to `String.take`, see `strTake_eq`). -/
def strTake (s : String) (n : Nat) : String := ⟨s.data.take n⟩

/-- JS `s.substring(n)`: everything from index `n` on, computed on the
character list (equal to `String.drop`, see `strDrop_eq`). -/
def strDrop (s : String) (n : Nat) : String := ⟨s.data.drop n⟩

/-- JS `s.endsWith(post)`, computed on the character lists. -/
def strEndsWith (s post : String) : Bool := post.data.isSuffixOf s.data

/-- JS `s.startsWith(pre)`, computed on the character lists. -/
def strStartsWith (s pre : String) : Bool := pre.data.isPrefixOf s.data

/-- JS `s.trim()`: strip leading and trailing whitespace, computed on the
character list. -/
def strTrim (s : String) : String :=
  ⟨((s.data.dropWhile Char.isWhitespace).reverse.dropWhile Char.isWhitespace).reverse⟩

/-- The concatenation of all final-marked transcripts of a batch, in batch
order (the `sessionFinal` accumulator of `recognition.onresult`). -/
def sessionFinalOf (batch : RecognitionBatch) : String :=
  batch.foldl (fun acc r => if r.isFinal then acc ++ r.transcript else acc) ""

/-- The concatenation of all non-final transcripts of a batch, in batch
order (the `interim` accumulator of `recognition.onresult`). -/
def interimOf (batch : RecognitionBatch) : String :=
  batch.foldl (fun acc r => if r.isFinal then acc else acc ++ r.transcript) ""

/-- `recognition.onresult`: recompute `sessionFinal` and `interim` from the
cumulative batch; if `sessionFinal` grew past `sessionCommitted`, append
only the newly appeared suffix to `finalTranscript` and advance
`sessionCommitted`; replace `currentInterim` wholesale. -/
def onresult (s : ContentState) (batch : RecognitionBatch) : ContentState :=
  let sessionFinal := sessionFinalOf batch
  let interim := interimOf batch
  let s1 :=
    if s.sessionCommitted.length < sessionFinal.length then
      { s with
        finalTranscript := s.finalTranscript ++ strDrop sessionFinal s.sessionCommitted.length,
        sessionCommitted := sessionFinal }
    else s
  { s1 with currentInterim := interim }

/-- The state effect of `recognition.onend` when the engine lifetime ends
while the session is still live and the restart succeeds: only the
lifetime-local `sessionCommitted` baseline is cleared; `finalTranscript`
survives the restart untouched. -/
def onendRestart (s : ContentState) : ContentState :=
  { s with sessionCommitted := "" }

/-- `stopRecognition()`: capture the target and the trimmed accumulated
text, tear down the recognition object, insert the text into the target
iff the target is non-null, still connected and the text is non-empty,
then clear the session-tracking fields.  Returns the new state and the
commit attempt (if any). -/
def stopRecognition (dom : Dom) (s : ContentState) : ContentState × Option Insertion :=
  let text := strTrim (s.finalTranscript ++ s.currentInterim)
  let ins : Option Insertion :=
    match s.targetElement with
    | some e => if dom.connected e && text ≠ "" then some ⟨e, text⟩ else none
    | none => none
  ({ s with recognitionActive := false, targetElement := none,
            finalTranscript := "", currentInterim := "" }, ins)

/-- Outcome of a stop entry point: resulting state, the commit attempt, and
whether `notifyBackground()` (the voice-input-stopped notification) was sent. -/
structure StopOutcome where
  state : ContentState
  insertion : Option Insertion
  notified : Bool
deriving DecidableEq

/-- The capture-phase keydown handler for Escape / Space: a no-op unless a
recognition object exists; otherwise `stopRecognition()` then
`notifyBackground()`. -/
def handleKeydownStop (dom : Dom) (s : ContentState) : StopOutcome :=
  if s.recognitionActive then
    ⟨(stopRecognition dom s).1, (stopRecognition dom s).2, true⟩
  else
    ⟨s, none, false⟩

/-- The `voice-input-stop` message handler: `stopRecognition()` then reply
with ok.  It never calls `notifyBackground()`.  The second component is the
`ok` field of the response. -/
def handleStopMessage (dom : Dom) (s : ContentState) : StopOutcome × Bool :=
  (⟨(stopRecognition dom s).1, (stopRecognition dom s).2, false⟩, true)

/-- `recognition.onerror`: return immediately (no state change, no commit,
no notification) for no-speech and aborted; otherwise `stopRecognition()`
then `notifyBackground()`. -/
def onerror (dom : Dom) (err : String) (s : ContentState) : StopOutcome :=
  if err = "no-speech" || err = "aborted" then
    ⟨s, none, false⟩
  else
    ⟨(stopRecognition dom s).1, (stopRecognition dom s).2, true⟩

/-- Result value of `startRecognition` (the response sent to the caller). -/
inductive StartResult where
  | ok : StartResult
  | err : String → StartResult
deriving DecidableEq

/-- `startRecognition(lang)`: resolve the focused editable (modelled as the
`focused` argument — `findFocusedEditable`'s result); fail if none.  If a
recognition object exists, perform the implicit `stopRecognition()` (which
may commit the previous session's text).  Fail if the speech API is
unavailable.  Otherwise capture the target, clear the transcript state,
reset the lifetime baseline and start the engine; on a start exception the
recognition and target references are dropped and the error is returned. -/
def startRecognition (dom : Dom) (focused : Option Nat)
    (speechAvailable startSucceeds : Bool) (lang : String) (s : ContentState) :
    ContentState × Option Insertion × StartResult :=
  match focused with
  | none => (s, none, .err "no-editable-element")
  | some el =>
    let stopped := if s.recognitionActive then stopRecognition dom s else (s, none)
    if speechAvailable = false then
      (stopped.1, stopped.2, .err "speech-api-not-supported")
    else
      let started : ContentState :=
        { recognitionActive := true, targetElement := some el, finalTranscript := "",
          currentInterim := "", sessionCommitted := "", lang := lang }
      if startSucceeds then
        (started, stopped.2, .ok)
      else
        ({ started with recognitionActive := false, targetElement := none },
         stopped.2, .err "start-exception")

/-- A plain-value surface (an `<input>` or `<textarea>`): its string value
and selection range (`selectionStart` / `selectionEnd`, null when absent). -/
structure InputField where
  value : String
  selectionStart : Option Nat
  selectionEnd : Option Nat
deriving DecidableEq

/-- `insertIntoStandardInput(el, text)`: splice `text` into the value at the
selection, prefixing a single space exactly when the part before the cursor
is non-empty, does not end with the space character and `text` does not
start with the space character; then place the cursor right after the
inserted text. -/
def insertIntoStandardInput (f : InputField) (text : String) : InputField :=
  let start := f.selectionStart.getD f.value.length
  let stop := f.selectionEnd.getD f.value.length
  let before := strTake f.value start
  let after := strDrop f.value stop
  let needsSpace := before.length > 0 && !strEndsWith before " " && !strStartsWith text " "
  let newValue := before ++ (if needsSpace then " " else "") ++ text ++ after
  let cursorPos := before.length + (if needsSpace then 1 else 0) + text.length
  { value := newValue, selectionStart := some cursorPos, selectionEnd := some cursorPos }

/-- Capabilities of the (unknown) owner of a rich-text surface, as observed
by `insertIntoContentEditable`: whether the `DataTransfer` / `ClipboardEvent`
constructors are available, whether the owner consumes the synthetic paste
event by calling preventDefault, whether `document.execCommand("insertText")`
reports success, and whether the `InputEvent` constructor is available. -/
structure EditorBehavior where
  pasteAvailable : Bool
  consumesPaste : Bool
  execCommandInsertText : Bool
  inputEventAvailable : Bool
deriving DecidableEq

/-- One observable action of the rich-text fallback chain.  The three
content-mutating actions are `editorPasteInsert` (the owner's paste pipeline
applies the payload), `execCommandInsert` and `appendTextNode`. -/
inductive CEAction where
  | pasteDispatch : String → CEAction
  | editorPasteInsert : String → CEAction
  | execCommandInsert : String → CEAction
  | beforeinputDispatch : String → CEAction
  | appendTextNode : String → CEAction
  | inputDispatch : CEAction
deriving DecidableEq

/-- Whether an action mutates the surface's content. -/
def CEAction.isMutation : CEAction → Bool
  | .editorPasteInsert _ => true
  | .execCommandInsert _ => true
  | .appendTextNode _ => true
  | _ => false

/-- The separator rule of `insertIntoContentEditable`: prefix a space iff
the existing text is non-empty, ends neither with a space nor a newline,
and `text` does not start with a space. -/
def ceNeedsSpace (existing text : String) : Bool :=
  existing.length > 0 && !strEndsWith existing " " && !strEndsWith existing "\n"
    && !strStartsWith text " "

/-- `insertIntoContentEditable(el, text)`: compute `toInsert` from the
separator rule, then run the fallback chain.  Strategy 1 dispatches a
synthetic paste event (when its constructors exist) and returns right away
if the owner consumed it, the owner's paste pipeline having applied the
payload once at the end-of-content selection.  Strategy 2 asks
`execCommand("insertText")`.  Strategy 3 fires beforeinput, appends a text
node, fires input.  Strategy 4 (the catch branch when `InputEvent` is
unavailable) appends a raw text node.  Returns the action trace and the
resulting visible content. -/
def insertIntoContentEditable (b : EditorBehavior) (existing text : String) :
    List CEAction × String :=
  let toInsert := (if ceNeedsSpace existing text then " " else "") ++ text
  let fallback : List CEAction × String :=
    if b.execCommandInsertText then
      ([.execCommandInsert toInsert], existing ++ toInsert)
    else if b.inputEventAvailable then
      ([.beforeinputDispatch toInsert, .appendTextNode toInsert, .inputDispatch],
       existing ++ toInsert)
    else
      ([.appendTextNode toInsert], existing ++ toInsert)
  if b.pasteAvailable then
    if b.consumesPaste then
      ([.pasteDispatch toInsert, .editorPasteInsert toInsert], existing ++ toInsert)
    else
      (.pasteDispatch toInsert :: fallback.1, fallback.2)
  else
    fallback

/-- Modelled from the spec (§4.4, claim C4's wording): the separator
predicate as the claim states it, with whitespace in place of the space
character — used only to compare the claim against the code's rule. -/
def specNeedsSpace (existing text : String) : Bool :=
  existing.length > 0
    && !(match existing.data.getLast? with
         | some c => c.isWhitespace
         | none => false)
    && !(match text.data.head? with
         | some c => c.isWhitespace
         | none => false)

/-- Modelled from the spec: the value the claim's separator rule predicts
when committing `text` into a plain surface with the cursor at
end-of-content. -/
def specSeparatorResult (existing text : String) : String :=
  existing ++ (if specNeedsSpace existing text then " " else "") ++ text

/-- A document in which every element is connected. -/
def domAll : Dom := ⟨fun _ => true⟩

/-- A document in which every element has been detached. -/
def domNone : Dom := ⟨fun _ => false⟩

/-! ## Helper lemmas -/

theorem strTake_eq (s : String) (n : Nat) : strTake s n = s.take n :=
  (String.take_eq s n).symm

theorem strDrop_eq (s : String) (n : Nat) : strDrop s n = s.drop n :=
  (String.drop_eq s n).symm

theorem onresult_final_eq (s : ContentState) (batch : RecognitionBatch)
    (h : s.sessionCommitted.length < (sessionFinalOf batch).length) :
    (onresult s batch).finalTranscript
      = s.finalTranscript ++ strDrop (sessionFinalOf batch) s.sessionCommitted.length := by
  simp only [onresult]
  rw [if_pos h]

theorem onresult_final_unchanged (s : ContentState) (batch : RecognitionBatch)
    (h : ¬ s.sessionCommitted.length < (sessionFinalOf batch).length) :
    (onresult s batch).finalTranscript = s.finalTranscript := by
  simp only [onresult]
  rw [if_neg h]

theorem strTake_length (v : String) : strTake v v.length = v := by
  show String.mk (v.data.take v.data.length) = v
  rw [List.take_length]

theorem strDrop_length (v : String) : strDrop v v.length = "" := by
  show String.mk (v.data.drop v.data.length) = ""
  rw [List.drop_length]

/-! ## Claim theorems -/

/-- C1: for every state and every recognition batch ingested by
`recognition.onresult`, the new `finalTranscript` is the old one with a
suffix appended (the old value is a prefix of the new one) and its length
never decreases; hence along any sequence of batches within an engine
lifetime the committed transcript only ever grows by appending. -/
theorem onresult_finalTranscript_extends (s : ContentState) (batch : RecognitionBatch) :
    ∃ t, (onresult s batch).finalTranscript = s.finalTranscript ++ t ∧
      s.finalTranscript.length ≤ (onresult s batch).finalTranscript.length := by
  by_cases h : s.sessionCommitted.length < (sessionFinalOf batch).length
  · refine ⟨strDrop (sessionFinalOf batch) s.sessionCommitted.length,
      onresult_final_eq s batch h, ?_⟩
    rw [onresult_final_eq s batch h, String.length_append]
    omega
  · exact ⟨"", by rw [onresult_final_unchanged s batch h, String.append_empty],
      by rw [onresult_final_unchanged s batch h]⟩

/-- C2: across an engine-lifetime restart, whose `onend` handler resets the
`sessionCommitted` baseline and nothing else, a committed transcript of
"hello " followed by a new lifetime whose batch carries the final text
"world" yields exactly "hello world": old text preserved, new text appended
once, no duplication. -/
theorem restart_preserves_committed (s : ContentState)
    (h : s.finalTranscript = "hello ") :
    (onresult (onendRestart s) [⟨true, "world"⟩]).finalTranscript = "hello world" := by
  have hsc : (onendRestart s).sessionCommitted = "" := rfl
  have hc : ((onendRestart s).sessionCommitted).length
      < (sessionFinalOf [⟨true, "world"⟩]).length := by
    rw [hsc]
    decide
  have hf : (onendRestart s).finalTranscript = "hello " := h
  rw [onresult_final_eq _ _ hc, hsc, hf]
  decide

/-- Witness for C2 at a concrete pre-restart state. -/
theorem restart_preserves_committed_witness :
    (onresult (onendRestart ⟨true, some 0, "hello ", "", "hello ", "en-US"⟩)
        [⟨true, "world"⟩]).finalTranscript = "hello world" :=
  restart_preserves_committed ⟨true, some 0, "hello ", "", "hello ", "en-US"⟩ rfl

/-- C3: `stopRecognition` is idempotent — a second consecutive call performs
no insertion and leaves the state exactly as the first call left it; a call
on an idle state (no recognition, no target, empty transcripts, any leftover
lifetime baseline and language) changes nothing and inserts nothing; and the
voice-input-stop message handler always replies ok. -/
theorem stop_idempotent (dom : Dom) (s : ContentState) (c l : String) :
    (stopRecognition dom (stopRecognition dom s).1).2 = none ∧
    (stopRecognition dom (stopRecognition dom s).1).1 = (stopRecognition dom s).1 ∧
    (stopRecognition dom
        { recognitionActive := false, targetElement := none, finalTranscript := "",
          currentInterim := "", sessionCommitted := c, lang := l }).1
      = { recognitionActive := false, targetElement := none, finalTranscript := "",
          currentInterim := "", sessionCommitted := c, lang := l } ∧
    (stopRecognition dom
        { recognitionActive := false, targetElement := none, finalTranscript := "",
          currentInterim := "", sessionCommitted := c, lang := l }).2 = none ∧
    (handleStopMessage dom s).2 = true :=
  ⟨rfl, rfl, rfl, rfl, rfl⟩

/-- C4 counterexample: the claim's separator rule speaks of whitespace, but
the code only tests the space character.  For an existing value ending in a
newline the code still prefixes a space while the claim's rule says it must
not, so the two results differ. -/
theorem separator_whitespace_counterexample :
    (insertIntoStandardInput ⟨"hello\n", none, none⟩ "world").value = "hello\n world" ∧
    specSeparatorResult "hello\n" "world" = "hello\nworld" ∧
    ("hello\n world" : String) ≠ "hello\nworld" := by
  refine ⟨?_, ?_, ?_⟩ <;> decide

/-- C4 amended: with the cursor at end-of-content, `insertIntoStandardInput`
prefixes a single space exactly when the existing value is non-empty, does
not already end with the space character (not: any whitespace) and the
committed text does not start with the space character; in particular
committing "world" into "hello" gives "hello world", into "hello " gives
"hello world", and into "" gives "world". -/
theorem separator_rule_space_char :
    (∀ v text : String,
      (insertIntoStandardInput ⟨v, none, none⟩ text).value
        = v ++ (if v.length > 0 && !strEndsWith v " " && !strStartsWith text " "
                then " " else "") ++ text) ∧
    (insertIntoStandardInput ⟨"hello", none, none⟩ "world").value = "hello world" ∧
    (insertIntoStandardInput ⟨"hello ", none, none⟩ "world").value = "hello world" ∧
    (insertIntoStandardInput ⟨"", none, none⟩ "world").value = "world" := by
  refine ⟨?_, by decide, by decide, by decide⟩
  intro v text
  simp only [insertIntoStandardInput, Option.getD_none, strTake_length, strDrop_length,
    String.append_empty]

/-- C5 counterexample: calling start while a session is active does not
discard the previous pending commit — the implicit stop inserts the
previous transcript into the previous target (element 0 here receives
"hello"), contradicting the claim that no text is inserted into the
previous session's target. -/
theorem start_discards_pending_counterexample :
    (startRecognition domAll (some 1) true true "en-US"
        ⟨true, some 0, "hello", "", "hello", "en-US"⟩).2.1
      = some ⟨0, "hello"⟩ := by
  decide

/-- C5 amended: calling start while a session is active first performs the
implicit stop, which commits (not discards) the previous session's pending
text — the commit attempt is exactly `stopRecognition`'s — and afterwards
exactly the new session is active, targeting the newly focused element with
a cleared transcript. -/
theorem start_while_active_stops_then_starts (dom : Dom) (el : Nat) (lang : String)
    (s : ContentState) (h : s.recognitionActive = true) :
    startRecognition dom (some el) true true lang s
      = ({ recognitionActive := true, targetElement := some el, finalTranscript := "",
           currentInterim := "", sessionCommitted := "", lang := lang },
         (stopRecognition dom s).2, .ok) := by
  simp [startRecognition, h]

/-- Witness for C5's amended theorem at a concrete active session. -/
theorem start_while_active_stops_then_starts_witness :
    startRecognition domAll (some 1) true true "en-US"
        ⟨true, some 0, "hello", "", "hello", "en-US"⟩
      = (⟨true, some 1, "", "", "", "en-US"⟩,
         (stopRecognition domAll ⟨true, some 0, "hello", "", "hello", "en-US"⟩).2,
         .ok) :=
  start_while_active_stops_then_starts domAll 1 "en-US"
    ⟨true, some 0, "hello", "", "hello", "en-US"⟩ rfl

/-- C6: `recognition.onerror` leaves the session state completely unchanged
(no commit, no notification) on no-speech and aborted, and on every other
engine error performs exactly `stopRecognition`'s transition and commit
attempt followed by the stopped notification. -/
theorem onerror_classification (dom : Dom) (err : String) (s : ContentState) :
    ((err = "no-speech" ∨ err = "aborted") → onerror dom err s = ⟨s, none, false⟩) ∧
    (err ≠ "no-speech" → err ≠ "aborted" →
      onerror dom err s
        = ⟨(stopRecognition dom s).1, (stopRecognition dom s).2, true⟩) := by
  constructor
  · rintro (h | h) <;> simp [onerror, h]
  · intro h1 h2
    simp [onerror, h1, h2]

/-- Witness for C6 at a concrete session, one benign error and one fatal
error. -/
theorem onerror_classification_witness :
    onerror domAll "no-speech" ⟨true, some 0, "hi", "", "hi", "en-US"⟩
      = ⟨⟨true, some 0, "hi", "", "hi", "en-US"⟩, none, false⟩ ∧
    onerror domAll "network" ⟨true, some 0, "hi", "", "hi", "en-US"⟩
      = ⟨(stopRecognition domAll ⟨true, some 0, "hi", "", "hi", "en-US"⟩).1,
         (stopRecognition domAll ⟨true, some 0, "hi", "", "hi", "en-US"⟩).2, true⟩ :=
  ⟨(onerror_classification domAll "no-speech" _).1 (Or.inl rfl),
   (onerror_classification domAll "network" _).2 (by decide) (by decide)⟩

/-- C7 counterexample: a session whose target (element 0) has been detached
and that is stopped through the explicit `voice-input-stop` message performs
no insertion — but the voice-input-stopped notification does not fire either,
contradicting the claim that it always does in the detached scenario. -/
theorem detached_stop_message_counterexample :
    ((handleStopMessage domNone ⟨true, some 0, "hello", "", "hello", "en-US"⟩).1.insertion
      = none) ∧
    ((handleStopMessage domNone ⟨true, some 0, "hello", "", "hello", "en-US"⟩).1.notified
      = false) := by
  refine ⟨?_, rfl⟩
  decide

/-- C7 amended: with a detached target, stopping never invokes the
insertion path through any stop entry point; the voice-input-stopped
notification fires when the stop comes from the Escape/Space keydown
handler of an active session or from a fatal engine error, but not when it
comes from the explicit voice-input-stop message. -/
theorem detached_target_no_commit (dom : Dom) (s : ContentState) (e : Nat)
    (h1 : s.targetElement = some e) (h2 : dom.connected e = false) :
    (stopRecognition dom s).2 = none ∧
    (handleKeydownStop dom s).insertion = none ∧
    (s.recognitionActive = true → (handleKeydownStop dom s).notified = true) ∧
    (handleStopMessage dom s).1.insertion = none ∧
    (handleStopMessage dom s).1.notified = false ∧
    (onerror dom "network" s).insertion = none ∧
    (onerror dom "network" s).notified = true := by
  have hstop : (stopRecognition dom s).2 = none := by
    simp [stopRecognition, h1, h2]
  refine ⟨hstop, ?_, ?_, hstop, rfl, hstop, rfl⟩
  · by_cases ha : s.recognitionActive <;> simp [handleKeydownStop, ha, hstop]
  · intro ha
    simp [handleKeydownStop, ha]

/-- Witness for C7's amended theorem at a concrete detached session. -/
theorem detached_target_no_commit_witness :
    (stopRecognition domNone ⟨true, some 0, "hello", "", "hello", "en-US"⟩).2 = none ∧
    (handleKeydownStop domNone ⟨true, some 0, "hello", "", "hello", "en-US"⟩).insertion
      = none ∧
    ((⟨true, some 0, "hello", "", "hello", "en-US"⟩ : ContentState).recognitionActive = true →
      (handleKeydownStop domNone ⟨true, some 0, "hello", "", "hello", "en-US"⟩).notified
        = true) ∧
    (handleStopMessage domNone ⟨true, some 0, "hello", "", "hello", "en-US"⟩).1.insertion
      = none ∧
    (handleStopMessage domNone ⟨true, some 0, "hello", "", "hello", "en-US"⟩).1.notified
      = false ∧
    (onerror domNone "network" ⟨true, some 0, "hello", "", "hello", "en-US"⟩).insertion
      = none ∧
    (onerror domNone "network" ⟨true, some 0, "hello", "", "hello", "en-US"⟩).notified
      = true :=
  detached_target_no_commit domNone ⟨true, some 0, "hello", "", "hello", "en-US"⟩ 0 rfl rfl

/-- C8: when the owner of a rich-text surface consumes the synthetic paste
event (the dispatch reports default prevented), the fallback chain stops
there: the action trace is exactly the paste dispatch plus the owner's
single application of the payload — no insertText command, no input-event
simulation, no raw append — and the content changes exactly once, to the
existing content followed by the separator-adjusted text. -/
theorem paste_consumed_short_circuits (b : EditorBehavior) (existing text : String)
    (h1 : b.pasteAvailable = true) (h2 : b.consumesPaste = true) :
    (insertIntoContentEditable b existing text).1
      = [.pasteDispatch ((if ceNeedsSpace existing text then " " else "") ++ text),
         .editorPasteInsert ((if ceNeedsSpace existing text then " " else "") ++ text)] ∧
    ((insertIntoContentEditable b existing text).1.filter CEAction.isMutation).length = 1 ∧
    (insertIntoContentEditable b existing text).2
      = existing ++ ((if ceNeedsSpace existing text then " " else "") ++ text) := by
  refine ⟨?_, ?_, ?_⟩ <;>
    simp [insertIntoContentEditable, h1, h2, CEAction.isMutation, List.filter]

/-- Witness for C8 at a concrete paste-consuming editor. -/
theorem paste_consumed_short_circuits_witness :
    (insertIntoContentEditable ⟨true, true, false, false⟩ "hello" "world").1
      = [.pasteDispatch ((if ceNeedsSpace "hello" "world" then " " else "") ++ "world"),
         .editorPasteInsert ((if ceNeedsSpace "hello" "world" then " " else "") ++ "world")] ∧
    ((insertIntoContentEditable ⟨true, true, false, false⟩ "hello" "world").1.filter
        CEAction.isMutation).length = 1 ∧
    (insertIntoContentEditable ⟨true, true, false, false⟩ "hello" "world").2
      = "hello" ++ ((if ceNeedsSpace "hello" "world" then " " else "") ++ "world") :=
  paste_consumed_short_circuits ⟨true, true, false, false⟩ "hello" "world" rfl rfl

/-- C9 end-to-end: starting with locale en-US on an empty plain field
(element 0), ingesting the cumulative batches carrying final "hello" and
then final "hello world", and stopping produces exactly one commit attempt,
of the trimmed text "hello world", and splicing it into the empty field
leaves the value exactly "hello world" with the cursor after it. -/
theorem end_to_end_hello_world :
    (startRecognition domAll (some 0) true true "en-US" initialState).2.2 = .ok ∧
    (stopRecognition domAll
        (onresult
          (onresult (startRecognition domAll (some 0) true true "en-US" initialState).1
            [⟨true, "hello"⟩])
          [⟨true, "hello world"⟩])).2
      = some ⟨0, "hello world"⟩ ∧
    insertIntoStandardInput ⟨"", none, none⟩ "hello world"
      = ⟨"hello world", some 11, some 11⟩ := by
  refine ⟨rfl, ?_, ?_⟩ <;> decide

/-- C10: if the trimmed accumulated transcript is empty when the session
stops, `stopRecognition` attempts no insertion at all, so the target
surface is left untouched. -/
theorem empty_transcript_no_insertion (dom : Dom) (s : ContentState)
    (h : strTrim (s.finalTranscript ++ s.currentInterim) = "") :
    (stopRecognition dom s).2 = none := by
  cases ht : s.targetElement <;> simp [stopRecognition, ht, h]

/-- Witness for C10 at a concrete whitespace-only transcript. -/
theorem empty_transcript_no_insertion_witness :
    (stopRecognition domAll ⟨true, some 0, " ", "", " ", "en-US"⟩).2 = none :=
  empty_transcript_no_insertion domAll ⟨true, some 0, " ", "", " ", "en-US"⟩ (by decide)

end VoiceInput
